import Mathlib

/-!
Verification of the AGU Python workshop notebook
(02_Science_Data_Formats_and_Advanced_Plotting.ipynb).

The notebook is a linear sequence of code cells calling external
libraries (numpy, xarray, pygrib, matplotlib).  We embed:
  * the statement structure of every code cell (for control-flow claims);
  * the documented semantics of the library operations the cells invoke
    (np.meshgrid, np.unique, xarray mean with missing values, the pygrib
    file cursor, xarray isel), as executable Lean functions;
  * a sequential cell executor with explicit error propagation and an
    explicit file-system state (for error-handling and frame claims).
-/

namespace AGU

/-! ## Statement-level embedding of the notebook code cells -/

/-- A Python statement, at the granularity the control-flow claims need.
Expressions are kept opaque as strings: no expression in the notebook
contains a conditional or a loop. -/
inductive Stmt where
  | importStmt (mod : String)
  | assign (lhs rhs : String)
  | exprStmt (e : String)
  | forLoop (v iter : String) (body : List Stmt)
  | ifStmt (cond : String) (thn els : List Stmt)
  | tryExcept (body handler : List Stmt)

mutual

/-- Does a statement contain a loop (possibly nested)? -/
def stmtHasLoop : Stmt → Bool
  | .importStmt _ => false
  | .assign _ _ => false
  | .exprStmt _ => false
  | .forLoop _ _ _ => true
  | .ifStmt _ t e => stmtsHaveLoop t || stmtsHaveLoop e
  | .tryExcept b h => stmtsHaveLoop b || stmtsHaveLoop h

/-- Does any statement of the list contain a loop? -/
def stmtsHaveLoop : List Stmt → Bool
  | [] => false
  | s :: rest => stmtHasLoop s || stmtsHaveLoop rest

end

mutual

/-- Does a statement contain a branch (if/else), possibly nested? -/
def stmtHasBranch : Stmt → Bool
  | .importStmt _ => false
  | .assign _ _ => false
  | .exprStmt _ => false
  | .forLoop _ _ b => stmtsHaveBranch b
  | .ifStmt _ _ _ => true
  | .tryExcept b h => stmtsHaveBranch b || stmtsHaveBranch h

/-- Does any statement of the list contain a branch? -/
def stmtsHaveBranch : List Stmt → Bool
  | [] => false
  | s :: rest => stmtHasBranch s || stmtsHaveBranch rest

end

mutual

/-- Does a statement contain a try/except handler, possibly nested? -/
def stmtHasTry : Stmt → Bool
  | .importStmt _ => false
  | .assign _ _ => false
  | .exprStmt _ => false
  | .forLoop _ _ b => stmtsHaveTry b
  | .ifStmt _ t e => stmtsHaveTry t || stmtsHaveTry e
  | .tryExcept _ _ => true

/-- Does any statement of the list contain a try/except handler? -/
def stmtsHaveTry : List Stmt → Bool
  | [] => false
  | s :: rest => stmtHasTry s || stmtsHaveTry rest

end

/-- A code cell is a list of statements. -/
abbrev Cell := List Stmt

def cellHasLoop (c : Cell) : Bool := stmtsHaveLoop c
def cellHasBranch (c : Cell) : Bool := stmtsHaveBranch c
def cellHasTry (c : Cell) : Bool := stmtsHaveTry c

open Stmt in
/-- The code cells of 02_Science_Data_Formats_and_Advanced_Plotting.ipynb,
in execution order, transcribed statement by statement (empty solution
cells omitted as they contain no statements). -/
def notebookCells : List Cell :=
  [ -- cell 2
    [importStmt "numpy", importStmt "pandas", importStmt "matplotlib.pyplot"],
    -- cell 4
    [importStmt "xarray"],
    -- cell 6
    [assign "fname" "data/JRR-AOD_..._thinned.nc",
     assign "aod_file_id" "xr.open_dataset(fname, engine=h5netcdf)"],
    -- cell 8
    [exprStmt "aod_file_id"],
    -- cell 11
    [assign "AOD_550" "aod_file_id[AOD550]",
     assign "AOD_lat" "aod_file_id[Latitude]",
     assign "AOD_lon" "aod_file_id[Longitude]"],
    -- cell 13
    [exprStmt "AOD_550"],
    -- cell 15
    [exprStmt "type(AOD_550.values)"],
    -- cell 17
    [assign "avgAOD" "AOD_550.mean()", exprStmt "print(avgAOD)"],
    -- cell 21
    [importStmt "pygrib"],
    -- cell 23
    [assign "filename" "data/gfs_3_20200915_0000_000.grb2",
     assign "gfs_grb2" "pygrib.open(filename)"],
    -- cell 25
    [exprStmt "type(gfs_grb2)"],
    -- cell 27: the records loop
    [assign "records" "[]",
     forLoop "grb" "gfs_grb2" [exprStmt "records.append(str(grb))"],
     exprStmt "len(records)"],
    -- cell 29
    [exprStmt "records[12]"],
    -- cell 31
    [assign "temps" "gfs_grb2.select(name=Temperature)"],
    -- cell 33
    [assign "temp" "gfs_grb2[315]"],
    -- cell 35
    [exprStmt "temp.values"],
    -- cell 37
    [exprStmt "temp.keys()"],
    -- cell 39
    [assign "gfs_lat_all" "temp.latitudes",
     assign "gfs_lon_all" "temp.longitudes",
     assign "level" "temp.level",
     assign "units" "temp.units",
     assign "analysis_date" "temp.analDate",
     assign "fcst_time" "temp.forecastTime"],
    -- cell 41
    [exprStmt "temp.values.shape, gfs_lat_all.shape, gfs_lon_all.shape"],
    -- cell 43
    [exprStmt "gfs_lat_all, gfs_lon_all"],
    -- cell 45
    [assign "gfs_lat" "np.unique(gfs_lat_all)",
     assign "gfs_lon" "np.unique(gfs_lon_all)",
     exprStmt "gfs_lat.shape, gfs_lon.shape"],
    -- cell 48
    [importStmt "xarray",
     assign "fname" "data/sst.mon.ltm.1981-2010.nc",
     assign "sst_file_id" "xr.open_dataset(fname, engine=h5netcdf, decode_times=False)"],
    -- cell 50
    [exprStmt "sst_file_id"],
    -- cell 53
    [assign "sst" "sst_file_id[sst]",
     assign "sst_lat" "sst_file_id[lat]",
     assign "sst_lon" "sst_file_id[lon]"],
    -- cell 55
    [exprStmt "sst_lat.shape, sst_lon.shape, sst.shape"],
    -- cell 57
    [assign "sst" "sst_file_id[sst].isel(time=11)"],
    -- cell 59
    [assign "tmp_x" "[1,2]", assign "tmp_y" "[3,4,5]"],
    -- cell 61
    [exprStmt "np.meshgrid(tmp_x, tmp_y)"],
    -- cell 63
    [assign "X_sst, Y_sst" "np.meshgrid(sst_lon, sst_lat)"],
    -- cell 65
    [exprStmt "sst.shape, X_sst.shape"],
    -- cell 67
    [assign "fig" "plt.figure()",
     assign "ax" "plt.subplot(111)",
     assign "sst_plot" "ax.contourf(X_sst, Y_sst, sst)",
     exprStmt "fig.colorbar(sst_plot, orientation=horizontal, ax=ax)",
     exprStmt "plt.show()"],
    -- cell 69
    [assign "fig" "plt.figure()",
     assign "ax" "plt.subplot(111)",
     assign "sst_plot" "ax.pcolormesh(X_sst, Y_sst, sst, shading=auto)",
     exprStmt "fig.colorbar(sst_plot, orientation=horizontal)",
     exprStmt "plt.show()"],
    -- cell 73
    [importStmt "cartopy.crs"],
    -- cell 75
    [assign "gfs_temp" "temp.values",
     assign "gfs_x, gfs_y" "np.meshgrid(gfs_lon, gfs_lat)",
     exprStmt "gfs_x.shape, gfs_y.shape, gfs_temp.shape"],
    -- cell 76
    [assign "fig" "plt.figure(figsize=[10,5])",
     assign "ax" "plt.subplot(projection=ccrs.PlateCarree())",
     exprStmt "ax.pcolormesh(gfs_x, gfs_y, gfs_temp)",
     exprStmt "ax.coastlines(50m)",
     exprStmt "plt.show()"],
    -- cell 78
    [assign "fig" "plt.figure(figsize=[10,5])",
     assign "ax" "plt.subplot(projection=ccrs.Orthographic(90, 0))",
     exprStmt "ax.pcolormesh(gfs_x, gfs_y, gfs_temp, transform=ccrs.PlateCarree())",
     exprStmt "ax.coastlines(50m)",
     exprStmt "plt.show()"]
  ]

/-! ## np.meshgrid

`np.meshgrid(x, y)` with the default (xy) indexing returns two 2-D
arrays of shape `(len(y), len(x))`: the first repeats `x` as each row,
the second repeats each element of `y` along a row (so `y` appears as
each column). -/

/-- Embedding of `np.meshgrid(x, y)` (default indexing). -/
def meshgrid (x y : List ℚ) : List (List ℚ) × List (List ℚ) :=
  (y.map (fun _ => x), y.map (fun b => x.map (fun _ => b)))

theorem meshgrid_fst_length (x y : List ℚ) : (meshgrid x y).1.length = y.length := by
  simp [meshgrid]

theorem meshgrid_snd_length (x y : List ℚ) : (meshgrid x y).2.length = y.length := by
  simp [meshgrid]

theorem meshgrid_fst_rows (x y : List ℚ) : ∀ r ∈ (meshgrid x y).1, r = x := by
  intro r hr
  simp only [meshgrid] at hr
  rcases List.mem_map.mp hr with ⟨b, hb, h⟩
  exact h.symm

theorem meshgrid_snd_row_length (x y : List ℚ) :
    ∀ r ∈ (meshgrid x y).2, r.length = x.length := by
  intro r hr
  simp only [meshgrid] at hr
  rcases List.mem_map.mp hr with ⟨b, hb, h⟩
  rw [← h]
  simp

theorem meshgrid_snd_entry (x y : List ℚ) (i j : ℕ)
    (hi : i < y.length) (hj : j < x.length) :
    ((meshgrid x y).2.getD i []).getD j 0 = y.getD i 0 := by
  simp only [meshgrid]
  have hi2 : i < (List.map (fun b => List.map (fun _ => b) x) y).length := by
    simpa using hi
  rw [List.getD_eq_getElem _ _ hi2, List.getElem_map]
  have hj2 : j < (List.map (fun _ => y[i]) x).length := by simpa using hj
  rw [List.getD_eq_getElem _ _ hj2, List.getElem_map]
  rw [List.getD_eq_getElem _ _ hi]

/-! ## np.unique

`np.unique(a)` returns the sorted distinct values of `a`. -/

/-- Insert a value into a strictly increasing list, keeping it strictly
increasing (duplicates are absorbed). -/
def insertUnique (x : ℚ) : List ℚ → List ℚ
  | [] => [x]
  | y :: ys =>
    if x < y then x :: y :: ys
    else if x = y then y :: ys
    else y :: insertUnique x ys

/-- Embedding of `np.unique`: the sorted list of distinct values. -/
def np_unique (a : List ℚ) : List ℚ :=
  a.foldr insertUnique []

theorem mem_insertUnique (x v : ℚ) (l : List ℚ) :
    v ∈ insertUnique x l ↔ v = x ∨ v ∈ l := by
  induction l with
  | nil => simp [insertUnique]
  | cons y ys ih =>
    simp only [insertUnique]
    by_cases h1 : x < y
    · simp [h1]
    · by_cases h2 : x = y
      · subst h2
        simp [h1]
      · simp only [h1, h2, if_false]
        simp only [List.mem_cons, ih]
        tauto

theorem sorted_insertUnique (x : ℚ) (l : List ℚ) (hl : l.Sorted (· < ·)) :
    (insertUnique x l).Sorted (· < ·) := by
  induction l with
  | nil => simp [insertUnique]
  | cons y ys ih =>
    rw [List.sorted_cons] at hl
    obtain ⟨hy, hys⟩ := hl
    simp only [insertUnique]
    by_cases h1 : x < y
    · rw [if_pos h1, List.sorted_cons]
      refine ⟨?_, by rw [List.sorted_cons]; exact ⟨hy, hys⟩⟩
      intro b hb
      rcases List.mem_cons.mp hb with rfl | hb2
      · exact h1
      · exact lt_trans h1 (hy b hb2)
    · by_cases h2 : x = y
      · rw [if_neg h1, if_pos h2, List.sorted_cons]
        exact ⟨hy, hys⟩
      · rw [if_neg h1, if_neg h2, List.sorted_cons]
        have hyx : y < x := lt_of_le_of_ne (not_lt.mp h1) (Ne.symm h2)
        refine ⟨?_, ih hys⟩
        intro b hb
        rcases (mem_insertUnique x b ys).mp hb with rfl | hb2
        · exact hyx
        · exact hy b hb2

theorem np_unique_sorted_lt (a : List ℚ) : (np_unique a).Sorted (· < ·) := by
  induction a with
  | nil => simp [np_unique]
  | cons x rest ih => exact sorted_insertUnique x _ ih

theorem np_unique_mem (a : List ℚ) (v : ℚ) : v ∈ np_unique a ↔ v ∈ a := by
  induction a with
  | nil => simp [np_unique]
  | cons x rest ih =>
    rw [np_unique, List.foldr_cons, mem_insertUnique]
    rw [np_unique] at ih
    rw [ih, List.mem_cons]

theorem np_unique_nodup (a : List ℚ) : (np_unique a).Nodup :=
  (np_unique_sorted_lt a).nodup

theorem insertUnique_head_sorted (y : ℚ) (ys : List ℚ)
    (h : (y :: ys).Sorted (· < ·)) : insertUnique y ys = y :: ys := by
  cases ys with
  | nil => rfl
  | cons z zs =>
    rw [List.sorted_cons] at h
    have hz : y < z := h.1 z (by simp)
    simp [insertUnique, hz]

theorem np_unique_of_sorted (l : List ℚ) (h : l.Sorted (· < ·)) :
    np_unique l = l := by
  induction l with
  | nil => rfl
  | cons y ys ih =>
    rw [List.sorted_cons] at h
    simp only [np_unique, List.foldr_cons]
    have hys := ih h.2
    rw [np_unique] at hys
    rw [hys]
    exact insertUnique_head_sorted y ys (by rw [List.sorted_cons]; exact h)

theorem np_unique_idem (a : List ℚ) : np_unique (np_unique a) = np_unique a :=
  np_unique_of_sorted _ (np_unique_sorted_lt a)

/-! ## The pygrib file handle

`pygrib.open` returns a cursor over the messages of a GRIB2 file.
Iterating it advances an internal position; once the position reaches
the end of the file, further iteration yields nothing.  `select` and
indexing (`grbs[n]`) search from the start of the file internally but
restore the cursor position, and nothing in the notebook calls
`close`, `rewind` or `seek`. -/

/-- A pygrib open-file handle: the messages of the file plus the cursor
position. -/
structure GribHandle where
  msgs : List String
  pos : ℕ
deriving DecidableEq

/-- Embedding of `pygrib.open`: a fresh handle at position 0. -/
def pygribOpen (file : List String) : GribHandle := ⟨file, 0⟩

/-- Embedding of the cell-27 loop `for grb in gfs_grb2:
records.append(str(grb))`: repeatedly pulls the next message, appending
it to `records`, until the cursor hits the end; returns the final
`records` list and the exhausted handle. -/
def recordsLoop (h : GribHandle) (acc : List String) : List String × GribHandle :=
  match hm : h.msgs.drop h.pos with
  | [] => (acc, h)
  | m :: _ => recordsLoop ⟨h.msgs, h.pos + 1⟩ (acc ++ [m])
termination_by h.msgs.length - h.pos
decreasing_by
  have hlt : h.pos < h.msgs.length := by
    by_contra hge
    rw [List.drop_eq_nil_of_le (Nat.le_of_not_lt hge)] at hm
    exact absurd hm (by simp)
  omega

/-- Embedding of `grbs.select(name=...)`: scans the whole file and
returns the matching messages; the cursor position is restored, not
advanced (pygrib rewinds internally and then seeks back). -/
def gribSelect (h : GribHandle) (p : String → Bool) : List String × GribHandle :=
  (h.msgs.filter p, h)

/-- Embedding of `grbs[n]` (1-based message lookup); the cursor
position is restored afterwards. -/
def gribGetItem (h : GribHandle) (n : ℕ) : Option String × GribHandle :=
  (h.msgs.get? (n - 1), h)

/-- The operations the notebook performs on the pygrib handle. -/
inductive GribOp where
  | openFile
  | iterateAll
  | selectName (name : String)
  | getItem (n : ℕ)
  | closeFile
  | rewindFile
deriving DecidableEq

/-- The handle operations of the notebook, in order: open (cell 23),
the records loop (cell 27), select Temperature (cell 31), index 315
(cell 33). -/
def notebookGribOps : List GribOp :=
  [.openFile, .iterateAll, .selectName "Temperature", .getItem 315]

def GribOp.isCloseOrRewind : GribOp → Bool
  | .closeFile => true
  | .rewindFile => true
  | _ => false

theorem recordsLoop_spec (msgs : List String) :
    ∀ pos acc, recordsLoop ⟨msgs, pos⟩ acc =
      (acc ++ msgs.drop pos, ⟨msgs, pos + (msgs.drop pos).length⟩) := by
  have key : ∀ n pos acc, msgs.length - pos = n →
      recordsLoop ⟨msgs, pos⟩ acc =
        (acc ++ msgs.drop pos, ⟨msgs, pos + (msgs.drop pos).length⟩) := by
    intro n
    induction n using Nat.strong_induction_on with
    | _ n ih =>
    intro pos acc hn
    rw [recordsLoop]
    rcases hd : msgs.drop pos with _ | ⟨m, rest⟩
    · simp [hd]
    · have hlt : pos < msgs.length := by
        by_contra hge
        rw [List.drop_eq_nil_of_le (Nat.le_of_not_lt hge)] at hd
        exact absurd hd (by simp)
      simp only
      rw [ih (msgs.length - (pos + 1)) (by omega) (pos + 1) (acc ++ [m]) rfl]
      have hdrop : msgs.drop (pos + 1) = rest := by
        rw [← List.drop_drop, hd]
        rfl
      rw [hdrop]
      simp only [Prod.mk.injEq, GribHandle.mk.injEq]
      refine ⟨by simp, trivial, ?_⟩
      simp only [List.length_cons]
      omega
  intro pos acc
  exact key (msgs.length - pos) pos acc rfl

/-! ## The records loop as a step relation (termination) -/

/-- One iteration of the cell-27 loop, on the state
(records so far, messages not yet consumed).  When the handle is
exhausted the state is unchanged. -/
def loopStep : List String × List String → List String × List String
  | (acc, []) => (acc, [])
  | (acc, m :: rest) => (acc ++ [m], rest)

theorem loopStep_iterate (msgs : List String) :
    ∀ acc, loopStep^[msgs.length] (acc, msgs) = (acc ++ msgs, []) := by
  induction msgs with
  | nil => simp
  | cons m rest ih =>
    intro acc
    rw [List.length_cons, Function.iterate_succ_apply]
    simp only [loopStep]
    rw [ih (acc ++ [m])]
    simp

theorem loopStep_fixed (st : List String × List String) :
    loopStep st = st ↔ st.2 = [] := by
  rcases st with ⟨acc, _ | ⟨m, rest⟩⟩
  · simp [loopStep]
  · simp only [loopStep]
    constructor
    · intro h
      have h1 := congrArg Prod.fst h
      simp at h1
    · intro h
      exact absurd h (by simp)

/-! ## Sequential cell execution and error propagation

The notebook runs cells top to bottom.  A cell either transforms the
interpreter state or fails with whatever exception the underlying
library raised; the notebook defines no handler, so execution stops at
the first failure and surfaces that exception unchanged. -/

/-- An exception raised by an underlying library (e.g. h5netcdf,
pygrib), carried unchanged. -/
structure LibError where
  lib : String
  message : String
deriving DecidableEq

/-- Sequential execution of cells on a state `σ`: each cell either
yields a new state or fails; there is no catch, so the first failure is
the result. -/
def runCells {σ : Type} : List (σ → Except LibError σ) → σ → Except LibError σ
  | [], s => .ok s
  | c :: rest, s =>
    match c s with
    | .error e => .error e
    | .ok s' => runCells rest s'

theorem runCells_append {σ : Type} (pre post : List (σ → Except LibError σ))
    (s s' : σ) (hpre : runCells pre s = .ok s') :
    runCells (pre ++ post) s = runCells post s' := by
  induction pre generalizing s with
  | nil =>
    simp only [runCells] at hpre
    cases hpre
    simp
  | cons c rest ih =>
    simp only [runCells] at hpre ⊢
    cases hc : c s with
    | error e => rw [hc] at hpre; exact absurd hpre (by simp)
    | ok s1 =>
      rw [hc] at hpre
      exact ih s1 hpre

/-! ## The file system and the notebook effect on it

The only interactions of the notebook with the file system are the three
dataset reads (`xr.open_dataset` twice, `pygrib.open` once).  We model
a file system as an association list from path to raw content, with
read, write and delete operations, and record the trace of file-system
operations the notebook performs. -/

/-- Raw content of a data file (opaque for our purposes). -/
structure FileContent where
  bytes : List ℕ
deriving DecidableEq

/-- A file system: paths mapped to contents. -/
abbrev FileSystem := List (String × FileContent)

/-- A file-system operation. -/
inductive FsOp where
  | readFile (path : String)
  | writeFile (path : String) (c : FileContent)
  | deleteFile (path : String)
deriving DecidableEq

/-- Effect of a file-system operation on the file system.  Reads leave
it unchanged; writes and deletes modify it. -/
def FsOp.apply (fs : FileSystem) : FsOp → FileSystem
  | .readFile _ => fs
  | .writeFile p c => (p, c) :: fs.filter (fun e => e.1 ≠ p)
  | .deleteFile p => fs.filter (fun e => e.1 ≠ p)

/-- The file-system operations the notebook performs, in order:
the AOD netCDF read (cell 6), the GFS GRIB2 read (cell 23) and the SST
netCDF read (cell 48). -/
def notebookFsOps : List FsOp :=
  [.readFile "data/JRR-AOD_v2r3_j01_s202009152044026_e202009152045271_c202009152113150_thinned.nc",
   .readFile "data/gfs_3_20200915_0000_000.grb2",
   .readFile "data/sst.mon.ltm.1981-2010.nc"]

def FsOp.isRead : FsOp → Bool
  | .readFile _ => true
  | _ => false

theorem fsOps_reads_preserve (ops : List FsOp) (h : ∀ op ∈ ops, op.isRead = true) :
    ∀ fs : FileSystem, ops.foldl FsOp.apply fs = fs := by
  induction ops with
  | nil => intro fs; rfl
  | cons op rest ih =>
    intro fs
    have hop := h op (by simp)
    cases op with
    | readFile p =>
      simp only [List.foldl_cons, FsOp.apply]
      exact ih (fun o ho => h o (by simp [ho])) fs
    | writeFile p c => simp [FsOp.isRead] at hop
    | deleteFile p => simp [FsOp.isRead] at hop

/-! ## xarray datasets: variable extraction and the missing-value mean

A dataset is a collection of named variables; each variable is an
array whose elements are either a value or missing (NaN / `_FillValue`,
decoded by xarray to missing).  Extracting a variable
(`aod_file_id[AOD550]`) looks the name up without modifying the
dataset, and `.mean()` skips missing values: it averages the
non-missing elements only. -/

/-- A data value: present, or missing (NaN). -/
abbrev DataVal := Option ℚ

/-- An xarray dataset: named 1-D-flattened variables. -/
structure Dataset where
  vars : List (String × List DataVal)
deriving DecidableEq

/-- Embedding of `ds[name]`: extract the array of a variable (empty if the
name is absent).  The dataset itself is not modified — this is a pure
lookup. -/
def Dataset.getVar (d : Dataset) (name : String) : List DataVal :=
  match d.vars.find? (fun e => e.1 = name) with
  | some e => e.2
  | none => []

/-- The running sum and count maintained by the mean: missing elements
advance neither. -/
def sumCount (a : List DataVal) : ℚ × ℕ :=
  a.foldl
    (fun (p : ℚ × ℕ) x =>
      match x with
      | none => p
      | some v => (p.1 + v, p.2 + 1)) (0, 0)

/-- Embedding of xarray `.mean()`: fold over the array accumulating the
sum and count of the non-missing elements only; missing elements touch
neither. Returns missing when every element is missing (all-NaN mean). -/
def xr_mean (a : List DataVal) : DataVal :=
  if (sumCount a).2 = 0 then none
  else some ((sumCount a).1 / ((sumCount a).2 : ℚ))

theorem xr_mean_fold_eq (a : List DataVal) :
    ∀ (s : ℚ) (c : ℕ),
      a.foldl (fun (p : ℚ × ℕ) x =>
        match x with
        | none => p
        | some v => (p.1 + v, p.2 + 1)) (s, c) =
      (s + (a.filterMap id).sum, c + (a.filterMap id).length) := by
  induction a with
  | nil => intro s c; simp
  | cons x rest ih =>
    intro s c
    cases x with
    | none => simp only [List.foldl_cons]; rw [ih]; simp
    | some v =>
      simp only [List.foldl_cons]
      rw [ih]
      simp only [List.filterMap_cons]
      simp [add_assoc, add_comm, add_left_comm]

theorem sumCount_eq (a : List DataVal) :
    sumCount a = ((a.filterMap id).sum, (a.filterMap id).length) := by
  rw [sumCount, xr_mean_fold_eq a 0 0]
  simp

/-! ## Shapes: isel and the plotting precondition

The SST file has dimensions time=12, lat=89, lon=180; its `sst`
variable has shape (12, 89, 180) (time, lat, lon).  `isel(time=11)`
selects the twelfth time slice, a (89, 180) array.  `contourf(X, Y, Z)`
and `pcolormesh(X, Y, Z)` require X, Y and Z to share one 2-D shape. -/

/-- A 2-D array `a` has `r` rows and `c` columns. -/
def shape2Is (a : List (List ℚ)) (r c : ℕ) : Prop :=
  a.length = r ∧ ∀ row ∈ a, row.length = c

/-- A 3-D array `a` has shape `(t, r, c)`. -/
def shape3Is (a : List (List (List ℚ))) (t r c : ℕ) : Prop :=
  a.length = t ∧ ∀ p ∈ a, shape2Is p r c

/-- Embedding of `.isel(time=i)` on a 3-D (time, lat, lon) array:
select the i-th time slice. -/
def isel_time (a : List (List (List ℚ))) (i : ℕ) : List (List ℚ) :=
  a.getD i []

/-- The same-shape precondition shared by `ax.contourf(X, Y, Z)` and
`ax.pcolormesh(X, Y, Z)`: the three arrays have one common 2-D shape. -/
def plotSameShape (x y z : List (List ℚ)) : Prop :=
  ∃ r c, shape2Is x r c ∧ shape2Is y r c ∧ shape2Is z r c

theorem isel_time_shape (a : List (List (List ℚ))) (t r c i : ℕ)
    (ha : shape3Is a t r c) (hi : i < t) : shape2Is (isel_time a i) r c := by
  obtain ⟨hlen, hmem⟩ := ha
  have hi2 : i < a.length := by rw [hlen]; exact hi
  have : isel_time a i ∈ a := by
    rw [isel_time, List.getD_eq_getElem _ _ hi2]
    exact List.getElem_mem hi2
  exact hmem _ this

theorem meshgrid_shape (x y : List ℚ) :
    shape2Is (meshgrid x y).1 y.length x.length ∧
      shape2Is (meshgrid x y).2 y.length x.length := by
  refine ⟨⟨meshgrid_fst_length x y, ?_⟩, ⟨meshgrid_snd_length x y, meshgrid_snd_row_length x y⟩⟩
  intro row hrow
  rw [meshgrid_fst_rows x y row hrow]

/-! ## The AOD cells as state transformers (frame claim)

Cell 11 binds three variables extracted from the opened dataset and
cell 17 computes the mean; neither touches the file system, the dataset
or a previously extracted array. -/

/-- The interpreter state the AOD cells read and write. -/
structure AodState where
  fs : FileSystem
  aod_file_id : Dataset
  AOD_550 : List DataVal
  AOD_lat : List DataVal
  AOD_lon : List DataVal
  avgAOD : DataVal
deriving DecidableEq

/-- Cell 11: extract AOD550, Latitude and Longitude from the dataset. -/
def cell11 (s : AodState) : AodState :=
  { s with
    AOD_550 := s.aod_file_id.getVar "AOD550"
    AOD_lat := s.aod_file_id.getVar "Latitude"
    AOD_lon := s.aod_file_id.getVar "Longitude" }

/-- Cell 17: compute the missing-value-skipping mean of AOD_550. -/
def cell17 (s : AodState) : AodState :=
  { s with avgAOD := xr_mean s.AOD_550 }

/-! ## Claim theorems -/

/-- C1, counterexample: the claim that no cell of the notebook contains
a loop or branch is false — cell 27 iterates the GRIB2 handle with a
for loop. -/
theorem C1_counterexample :
    ¬ ∀ c ∈ notebookCells, cellHasLoop c = false ∧ cellHasBranch c = false := by
  decide

/-- C1, amended: exactly one code cell of the notebook contains a loop
(the records loop over the GRIB2 messages in cell 27), and no cell
contains a branch; every other cell is straight-line library calls. -/
theorem C1_amended_one_loop_no_branch :
    notebookCells.countP (fun c => cellHasLoop c) = 1 ∧
      notebookCells.all (fun c => !cellHasBranch c) = true := by
  constructor
  · decide
  · decide

/-- C2: np.meshgrid(x, y) returns exactly two 2-D arrays, each with
len(y) rows and len(x) columns, the first repeating x as each row and
the second repeating y as each column; concretely
np.meshgrid([1,2], [3,4,5]) yields two arrays with 3 rows and 2
columns. -/
theorem C2_meshgrid (x y : List ℚ) :
    (meshgrid x y).1.length = y.length ∧
    (meshgrid x y).2.length = y.length ∧
    (∀ r ∈ (meshgrid x y).1, r = x) ∧
    (∀ r ∈ (meshgrid x y).2, r.length = x.length) ∧
    (∀ i j, i < y.length → j < x.length →
      ((meshgrid x y).2.getD i []).getD j 0 = y.getD i 0) ∧
    meshgrid [1, 2] [3, 4, 5] =
      ([[1, 2], [1, 2], [1, 2]], [[3, 3], [4, 4], [5, 5]]) := by
  refine ⟨meshgrid_fst_length x y, meshgrid_snd_length x y, meshgrid_fst_rows x y,
    meshgrid_snd_row_length x y, ?_, by decide⟩
  intro i j hi hj
  exact meshgrid_snd_entry x y i j hi hj

/-- C2, witness: the meshgrid column property evaluated at the concrete
cell-59 inputs x = [1,2], y = [3,4,5]: entry (1,0) of the second array
is y1 = 4. -/
theorem C2_meshgrid_witness :
    ((meshgrid [1, 2] [3, 4, 5]).2.getD 1 []).getD 0 0 = 4 := by
  have h := (C2_meshgrid [1, 2] [3, 4, 5]).2.2.2.2.1 1 0 (by decide) (by decide)
  rw [h]
  decide

/-- C3: np.unique removes exactly the duplicates: every value of
np.unique(a) occurs in a, every value of a occurs in np.unique(a), and
the result has no repeated value — so applied to a repeated coordinate
grid it collapses it to the distinct values. -/
theorem C3_np_unique (a : List ℚ) :
    (∀ v ∈ np_unique a, v ∈ a) ∧
    (∀ v ∈ a, v ∈ np_unique a) ∧
    (np_unique a).Nodup := by
  refine ⟨?_, ?_, np_unique_nodup a⟩
  · intro v hv
    exact (np_unique_mem a v).mp hv
  · intro v hv
    exact (np_unique_mem a v).mpr hv

/-- C3, witness: on the repeated grid [30, 10, 30, 10] the value 30
survives into np.unique of it (and, by evaluation, the result is the
duplicate-free [10, 30]). -/
theorem C3_np_unique_witness :
    (30 : ℚ) ∈ np_unique [30, 10, 30, 10] ∧ np_unique [30, 10, 30, 10] = [10, 30] :=
  ⟨(C3_np_unique [30, 10, 30, 10]).2.1 30 (by decide), by decide⟩

/-- C4: the pygrib handle is a single-use cursor: iterating it consumes
all messages and leaves the position at the end of the file, a second
iteration of the same handle yields nothing, the select and indexing
operations the notebook performs restore the position (and none of the
notebook handle operations is a close or a rewind), and re-opening the
file yields the messages again. -/
theorem C4_single_use_cursor (file : List String) (p : String → Bool) (n : ℕ) :
    (recordsLoop (pygribOpen file) []).1 = file ∧
    (recordsLoop (pygribOpen file) []).2 = ⟨file, file.length⟩ ∧
    (recordsLoop ⟨file, file.length⟩ []).1 = [] ∧
    (gribSelect ⟨file, file.length⟩ p).2 = ⟨file, file.length⟩ ∧
    (gribGetItem ⟨file, file.length⟩ n).2 = ⟨file, file.length⟩ ∧
    notebookGribOps.all (fun op => !op.isCloseOrRewind) = true := by
  have h1 := recordsLoop_spec file 0 []
  have h2 := recordsLoop_spec file file.length []
  rw [List.drop_zero] at h1
  rw [List.drop_length] at h2
  refine ⟨?_, ?_, ?_, rfl, rfl, by decide⟩
  · simp only [pygribOpen]
    rw [h1]
    simp
  · simp only [pygribOpen]
    rw [h1]
    simp
  · rw [h2]
    simp

/-- C6: the records loop terminates on every finite message sequence:
after exactly as many steps as there are messages it reaches the final
state (all messages appended, nothing left) and stays there, and this
is the only loop in the notebook. -/
theorem C6_loop_terminates (msgs : List String) (k : ℕ) :
    loopStep^[msgs.length] ([], msgs) = (msgs, []) ∧
    loopStep^[msgs.length + k] ([], msgs) = (msgs, []) ∧
    notebookCells.countP (fun c => cellHasLoop c) = 1 := by
  have h1 := loopStep_iterate msgs []
  rw [List.nil_append] at h1
  refine ⟨h1, ?_, by decide⟩
  rw [Nat.add_comm, Function.iterate_add_apply, h1]
  exact Function.iterate_fixed rfl k

/-- C5: cells run sequentially with no handler: when every cell before
some failing cell succeeds, the run returns exactly the error the
failing cell raised, unchanged; and no cell of the notebook contains a
try/except handler of its own. -/
theorem C5_error_passthrough {σ : Type} (pre post : List (σ → Except LibError σ))
    (c : σ → Except LibError σ) (s s' : σ) (e : LibError)
    (hpre : runCells pre s = .ok s') (hc : c s' = .error e) :
    runCells (pre ++ c :: post) s = .error e ∧
    notebookCells.all (fun cell => !cellHasTry cell) = true := by
  constructor
  · rw [runCells_append pre (c :: post) s s' hpre]
    simp only [runCells, hc]
  · decide

/-- C5, witness: a two-cell run where the first cell succeeds and the
second raises a library error surfaces exactly that error. -/
theorem C5_error_passthrough_witness :
    runCells [fun n : ℕ => Except.ok (n + 1),
        fun _ : ℕ => Except.error ⟨"h5netcdf", "unable to open file"⟩] 0 =
      Except.error ⟨"h5netcdf", "unable to open file"⟩ :=
  (C5_error_passthrough [fun n : ℕ => Except.ok (n + 1)] []
    (fun _ : ℕ => Except.error ⟨"h5netcdf", "unable to open file"⟩) 0 1
    ⟨"h5netcdf", "unable to open file"⟩ rfl rfl).1

/-- C7: the notebook only reads files — its file-system operation trace
is reads only and leaves any file system unchanged — and extracting
variables and taking the mean leave the dataset object and the
previously extracted arrays unchanged. -/
theorem C7_read_only_no_mutation (s : AodState) (fs : FileSystem) :
    notebookFsOps.all (fun op => op.isRead) = true ∧
    notebookFsOps.foldl FsOp.apply fs = fs ∧
    (cell17 (cell11 s)).fs = s.fs ∧
    (cell17 (cell11 s)).aod_file_id = s.aod_file_id ∧
    (cell17 (cell11 s)).AOD_550 = (cell11 s).AOD_550 ∧
    (cell17 (cell11 s)).AOD_lat = (cell11 s).AOD_lat ∧
    (cell17 (cell11 s)).AOD_lon = (cell11 s).AOD_lon := by
  refine ⟨by decide, ?_, rfl, rfl, rfl, rfl, rfl⟩
  exact fsOps_reads_preserve notebookFsOps (by decide) fs

/-- C8: with the SST variable of shape (12, 89, 180) over
(time, lat, lon), isel(time=11) yields a (89, 180) = (len lat, len lon)
array, which is exactly the shape of both meshgrid(sst_lon, sst_lat)
outputs, so the same-shape precondition of contourf and pcolormesh
holds with no transpose of sst. -/
theorem C8_sst_plot_shapes (sstAll : List (List (List ℚ))) (lat lon : List ℚ)
    (hsst : shape3Is sstAll 12 lat.length lon.length)
    (hlat : lat.length = 89) (hlon : lon.length = 180) :
    shape2Is (isel_time sstAll 11) 89 180 ∧
    shape2Is (meshgrid lon lat).1 89 180 ∧
    shape2Is (meshgrid lon lat).2 89 180 ∧
    plotSameShape (meshgrid lon lat).1 (meshgrid lon lat).2 (isel_time sstAll 11) := by
  have hz : shape2Is (isel_time sstAll 11) lat.length lon.length :=
    isel_time_shape sstAll 12 lat.length lon.length 11 hsst (by omega)
  have hm := meshgrid_shape lon lat
  rw [hlat, hlon] at hz hm
  exact ⟨hz, hm.1, hm.2, 89, 180, hm.1, hm.2, hz⟩

/-- C8, witness: on a concrete (12, 89, 180) array and 89- and
180-element coordinate axes, the plotting precondition holds for the
time-11 slice with no transpose. -/
theorem C8_sst_plot_shapes_witness :
    plotSameShape
      (meshgrid (List.replicate 180 0) (List.replicate 89 0)).1
      (meshgrid (List.replicate 180 0) (List.replicate 89 0)).2
      (isel_time (List.replicate 12 (List.replicate 89 (List.replicate 180 0))) 11) := by
  refine (C8_sst_plot_shapes
    (List.replicate 12 (List.replicate 89 (List.replicate 180 0)))
    (List.replicate 89 0) (List.replicate 180 0) ?_
    (List.length_replicate 89 0) (List.length_replicate 180 0)).2.2.2
  refine ⟨List.length_replicate 12 _, ?_⟩
  intro p hp
  rw [List.eq_of_mem_replicate hp]
  refine ⟨by rw [List.length_replicate, List.length_replicate], ?_⟩
  intro row hrow
  rw [List.eq_of_mem_replicate hrow]

/-- C9: np.unique returns a strictly increasing list and is idempotent,
so the deduplicated latitude axis is ascending whatever the order of
the raw repeated grid. -/
theorem C9_np_unique_sorted_idem (a : List ℚ) :
    (np_unique a).Sorted (· < ·) ∧ np_unique (np_unique a) = np_unique a :=
  ⟨np_unique_sorted_lt a, np_unique_idem a⟩

/-- C10: on any array with at least one non-missing element, the
xarray mean equals the arithmetic mean of the non-missing elements
only: missing values contribute to neither the sum nor the count. -/
theorem C10_mean_skips_missing (a : List DataVal) (h : a.filterMap id ≠ []) :
    xr_mean a = some ((a.filterMap id).sum / ((a.filterMap id).length : ℚ)) := by
  rw [xr_mean, sumCount_eq]
  have hlen : (a.filterMap id).length ≠ 0 := by
    intro h0
    exact h (List.eq_nil_of_length_eq_zero h0)
  simp [hlen]

/-- C10, witness: the mean of [1, missing, 3] is 2 — the missing value
is excluded from both the sum and the count. -/
theorem C10_mean_skips_missing_witness :
    xr_mean [some 1, none, some 3] = some 2 := by
  have h := C10_mean_skips_missing [some 1, none, some 3] (by decide)
  have hfm : List.filterMap id [some 1, none, some 3] = ([1, 3] : List ℚ) := by decide
  rw [h, hfm]
  norm_num [List.sum_cons, List.sum_nil]

end AGU
